import Mathlib

/-!
Verification development for the Starlette integration of the sentry SDK
(`sentry_sdk/integrations/starlette.py`).

The Python source is shallowly embedded: each Python function that a claim
depends on becomes an executable Lean definition over an explicit data model.
Asynchronous calls are modelled as pure values (the awaited result), raised
exceptions as the `Except.error` branch of `Except String`, Python dicts as
association lists, and side effects (spans emitted, events captured, calls
into the downstream app) as explicit components of the returned value.
-/

namespace SentryStarlette

/-- The tuple `TRANSACTION_STYLE_VALUES = ("endpoint", "url")` (source line 29). -/
def TRANSACTION_STYLE_VALUES : List String := ["endpoint", "url"]

/-- The `StarletteIntegration` object: after a successful `__init__` it stores
the validated `transaction_style` (source lines 32-44). -/
structure StarletteIntegration where
  transaction_style : String
deriving DecidableEq, Repr

/-- The class attribute `StarletteIntegration.identifier = "starlette"`
(source line 33). -/
def StarletteIntegration.identifier : String := "starlette"

/-- Python `StarletteIntegration.__init__` (source lines 37-44): if the requested
`transaction_style` is not one of `TRANSACTION_STYLE_VALUES`, a `ValueError`
is raised (modelled as `Except.error` carrying the message); otherwise the
style is stored on the freshly constructed integration. -/
def StarletteIntegration.init (transaction_style : String) :
    Except String StarletteIntegration :=
  if transaction_style ∉ TRANSACTION_STYLE_VALUES then
    .error ("Invalid value for transaction_style: " ++ transaction_style)
  else
    .ok { transaction_style }

/-! ### The root middleware `SentryStarletteMiddleware.__call__` -/

/-- Observable effects of one invocation of
`SentryStarletteMiddleware.__call__` (source lines 326-377): whether the
wrapped downstream `self.app` was awaited, whether
`StarletteRequestExtractor.extract_request_info` ran, and whether an event
processor was registered on the sentry scope. -/
structure MiddlewareCallResult where
  appCalled : Bool
  extracted : Bool
  processorRegistered : Bool
deriving DecidableEq, Repr

/-- Python `SentryStarletteMiddleware.__call__` (source lines 326-377), as the effect
trace of one invocation. Control flow from the source: a non-`"http"` scope is
delegated to `self.app` at once (lines 328-330); otherwise, when
`hub.get_integration(StarletteIntegration)` is `None` the function returns
(line 334-335) — note that this `return` does NOT await `self.app`; otherwise
the extractor runs, a request event processor is registered and `self.app` is
awaited (lines 337-377). -/
def SentryStarletteMiddleware.call (integration : Option StarletteIntegration)
    (scopeType : String) : MiddlewareCallResult :=
  if scopeType ≠ "http" then
    { appCalled := true, extracted := false, processorRegistered := false }
  else
    match integration with
    | none => { appCalled := false, extracted := false, processorRegistered := false }
    | some _ => { appCalled := true, extracted := true, processorRegistered := true }

/-! ### The span wrapper `_enable_span_for_middleware` -/

/-- A dynamically typed Python value, enough to distinguish `None` from
non-`None` return values of a wrapped middleware call. -/
inductive PyVal where
  | none : PyVal
  | int : Int → PyVal
  | str : String → PyVal
deriving DecidableEq, Repr

/-- A span as opened by `hub.start_span` in `_create_span_call`
(source lines 63-66): operation, description and the tags set on it. -/
structure Span where
  op : String
  description : String
  tags : List (String × String)
deriving DecidableEq, Repr

/-- Python `_create_span_call`, the wrapper installed by
`_enable_span_for_middleware` (source lines 53-75). `old_call` is the awaited
outcome of the original `__call__` (its return value, or the exception it
raises). The result is the list of spans opened (and closed, the `with` block
closes the span even when the body raises) during the call, paired with the
wrapper's own outcome. In both branches the source awaits `old_call` without
a `return` statement, so the wrapper itself returns `None`; an exception from
`old_call` propagates after the span is closed. -/
def _create_span_call (integration : Option StarletteIntegration)
    (middlewareName : String) (old_call : Except String PyVal) :
    List Span × Except String PyVal :=
  match integration with
  | some _ =>
      ([{ op := "starlette.middleware", description := middlewareName,
          tags := [("starlette.middleware_name", middlewareName)] }],
       match old_call with
       | .ok _ => .ok .none
       | .error e => .error e)
  | none =>
      ([],
       match old_call with
       | .ok _ => .ok .none
       | .error e => .error e)

/-! ### Exception capture and the patched exception middleware -/

/-- The `mechanism` dict passed to `event_from_exception`
(source line 87): `type` and `handled` classification. -/
structure Mechanism where
  type : String
  handled : Bool
deriving DecidableEq, Repr

/-- An event as captured by `hub.capture_event` in `_capture_exception`:
the exception it was built from and its mechanism. -/
structure CapturedEvent where
  exception : String
  mechanism : Mechanism
deriving DecidableEq, Repr

/-- Python `_capture_exception` (source lines 78-90): when no `StarletteIntegration`
is active nothing is captured; otherwise an event for `exception` with
mechanism `type = StarletteIntegration.identifier` and the given `handled`
flag is sent to `hub.capture_event`. The result is the captured event, if
any. -/
def _capture_exception (integration : Option StarletteIntegration)
    (exception : String) (handled : Bool) : Option CapturedEvent :=
  match integration with
  | none => Option.none
  | some _ =>
      some { exception := exception,
             mechanism := { type := StarletteIntegration.identifier, handled := handled } }

/-- Python `_sentry_patched_http_exception`, the replacement for
`ExceptionMiddleware.http_exception` installed by `patch_exception_middleware`
(source lines 93-106): it first calls `_capture_exception(exc, handled=True)`
and then returns `old_http_exception(self, request, exc)` unchanged. `ρ` is
the type of requests and `δ` the type of the original hook's result; the
returned pair is (event captured, result of the original hook at the
identical arguments). -/
def _sentry_patched_http_exception {ρ δ : Type}
    (integration : Option StarletteIntegration)
    (old_http_exception : ρ → String → δ) (request : ρ) (exc : String) :
    Option CapturedEvent × δ :=
  (_capture_exception integration exc true, old_http_exception request exc)

/-! ### Route matching and the transaction-name loop of `inner` -/

/-- Enum `starlette.routing.Match`: the outcome of `route.matches(scope)`. -/
inductive Match where
  | NONE
  | PARTIAL
  | FULL
deriving DecidableEq, Repr

/-- One route of `router.routes`, already evaluated at the fixed request
scope the event processor closed over: `path` is `route.path`, and
`outcome` / `endpointName` are the two components of
`route.matches(req.scope)` (the outcome and `match[1]["endpoint"].__name__`). -/
structure Route where
  path : String
  endpointName : String
  outcome : Match
deriving DecidableEq, Repr

/-- The `for route in router.routes` loop of `inner` (source lines 360-366),
threading the current value of `event["transaction"]` through the iterations:
each route's `matches` is evaluated; on a `FULL` outcome the transaction is
overwritten with the endpoint name (style `"endpoint"`) or the route path
(style `"url"`). The second component counts how many routes had their
`matches` evaluated. The loop body contains no `break`, so every route is
visited. -/
def resolveTransactionAux (style : String) :
    List Route → Option String → Option String × Nat
  | [], tr => (tr, 0)
  | r :: rs, tr =>
      let tr' :=
        if r.outcome = Match.FULL then
          if style = "endpoint" then some r.endpointName
          else if style = "url" then some r.path
          else tr
        else tr
      let rest := resolveTransactionAux style rs tr'
      (rest.1, rest.2 + 1)

/-- Transaction-name resolution for a request against a route table, starting
from an unset transaction (source lines 358-366). -/
def resolveTransaction (style : String) (routes : List Route) :
    Option String × Nat :=
  resolveTransactionAux style routes none

/-- The last route of the table whose match outcome is `FULL` — the
specification-side description of which route the loop's final overwrite
came from. -/
def lastFull : List Route → Option Route
  | [] => Option.none
  | r :: rs =>
      match lastFull rs with
      | some r' => some r'
      | Option.none => if r.outcome = Match.FULL then some r else Option.none

/-! ### The request data model and `StarletteRequestExtractor` -/

/-- A byte string, as a list of byte values. -/
abbrev Bytes := List Nat

/-- The `AnnotatedValue` produced by the extractor: the placeholder `value`
(always `""` in this source), the `"rem"` metadata entries
`(kind, "x", start, length)` and the `"len"` metadata entry. -/
structure AnnotatedValue where
  value : String
  rem : List (String × String × Nat × Nat)
  len : Nat
deriving DecidableEq, Repr

/-- One value of the multipart form mapping returned by `request.form()`:
either a `starlette.datastructures.UploadFile` with the given byte content,
or a plain field value. -/
inductive FormField where
  | uploadFile (content : Bytes) : FormField
  | value (s : String) : FormField
deriving DecidableEq, Repr

/-- A parsed JSON document, as returned by the external `request.json()`
parser. The extractor passes it through without inspecting it, so it is
uninterpreted here. -/
structure JsonVal where
  token : Nat
deriving DecidableEq, Repr

/-- A value of the `data` dict built by `parsed_body` from the form mapping:
a raw field value kept as-is, or the `AnnotatedValue` standing in for an
uploaded file. -/
inductive ParsedVal where
  | str : String → ParsedVal
  | annotated : AnnotatedValue → ParsedVal
deriving DecidableEq, Repr

/-- The `data` component of the extracted request info: a dict built from
form fields, a parsed JSON value, or an `AnnotatedValue` placeholder. -/
inductive BodyData where
  | form : List (String × ParsedVal) → BodyData
  | json : JsonVal → BodyData
  | annotated : AnnotatedValue → BodyData
deriving DecidableEq, Repr

/-- The active client, reduced to the policy input of
`request_body_within_bounds`. -/
structure Client where
  sizeBudget : Nat
deriving DecidableEq, Repr

/-- A Starlette `Request` as seen by the extractor: the `content-type`
header, the cookie mapping, the (cached, single-read) result of
`request.body()` (`none` models an absent body), and the awaited outcomes of
`request.form()` and `request.json()` — each may raise, modelled by
`Except.error`.  `request.json()` may also succeed with the JSON literal
`null`, modelled by `Except.ok Option.none`. -/
structure Request where
  contentType : Option String
  cookies : List (String × String)
  body : Option Bytes
  formData : Except String (List (String × FormField))
  jsonData : Except String (Option JsonVal)

/-- Modelled from the spec: `request_body_within_bounds` is imported from
`sentry_sdk/integrations/_wsgi_common.py`, which is not part of this
repository snapshot. Per the spec, a body is within bounds exactly when
`contentLength` does not exceed the client's `sizeBudget` ("If
`contentLength` exceeds `sizeBudget`, set `data` to a size-limit
`RedactedValue`"). -/
def request_body_within_bounds (client : Client) (content_length : Nat) : Bool :=
  content_length ≤ client.sizeBudget

/-- Modelled from the spec: `_is_json_content_type` is imported from
`sentry_sdk/integrations/_wsgi_common.py`, which is not part of this
repository snapshot. Per the spec it decides whether the `content-type`
header "indicates JSON". -/
def _is_json_content_type (contentType : Option String) : Bool :=
  match contentType with
  | Option.none => false
  | some s => s = "application/json" || s.endsWith "+json"

namespace StarletteRequestExtractor

/-- Python `StarletteRequestExtractor.raw_data` (source lines 273-275): the awaited
`request.body()`. -/
def raw_data (r : Request) : Option Bytes := r.body

/-- Python `StarletteRequestExtractor.content_length` (source lines 262-267): `0`
when `raw_data` is `None`, else the byte length of the body. -/
def content_length (r : Request) : Nat :=
  match raw_data r with
  | Option.none => 0
  | some b => b.length

/-- Truthiness of `await self.raw_data()` as used on source line 249: a
missing or empty byte string is falsy. -/
def raw_data_truthy (r : Request) : Bool :=
  match raw_data r with
  | Option.none => false
  | some b => b ≠ []

/-- Python `StarletteRequestExtractor.cookies` (source lines 269-271). -/
def cookies (r : Request) : List (String × String) := r.cookies

/-- Python `StarletteRequestExtractor.form` (source lines 277-283): the awaited
`request.form()`. -/
def form (r : Request) : Except String (List (String × FormField)) := r.formData

/-- Python `StarletteRequestExtractor.is_json` (source lines 285-287). -/
def is_json (r : Request) : Bool := _is_json_content_type r.contentType

/-- Python `StarletteRequestExtractor.json` (source lines 289-297): `None` when the
content type is not JSON, otherwise the awaited `request.json()`. -/
def json (r : Request) : Except String (Option JsonVal) :=
  if ¬ is_json r then .ok Option.none else r.jsonData

/-- The redaction applied to one form field by the loop of `parsed_body`
(source lines 307-314): an `UploadFile` is replaced by an `AnnotatedValue`
recording only the byte length of `await val.read()`; any other value is kept
as-is. -/
def redactField : FormField → ParsedVal
  | FormField.uploadFile content =>
      ParsedVal.annotated
        { value := "", rem := [("!raw", "x", 0, content.length)], len := content.length }
  | FormField.value s => ParsedVal.str s

/-- Python `StarletteRequestExtractor.parsed_body` (source lines 299-318): if the
awaited form mapping is truthy (non-empty), build the `data` dict by
redacting each field with `redactField`; otherwise fall through to
`self.json()`. A `json` result of `None` (not JSON content type, or the JSON
literal `null`) yields `Option.none`. Exceptions from `form`/`json`
propagate: the source installs no handler. -/
def parsed_body (r : Request) : Except String (Option BodyData) :=
  match form r with
  | .error e => .error e
  | .ok f =>
      if f ≠ [] then
        .ok (some (BodyData.form (f.map (fun kv => (kv.1, redactField kv.2)))))
      else
        match json r with
        | .error e => .error e
        | .ok j => .ok (j.map BodyData.json)

end StarletteRequestExtractor

/-- The dict returned by `extract_request_info`: the `"cookies"` key is
present exactly when PII collection is enabled, the `"data"` key exactly when
a body payload was produced. -/
structure RequestInfo where
  cookies : Option (List (String × String))
  data : Option BodyData
deriving DecidableEq, Repr

/-- Python truthiness of the `request_info` dict (used as `if info:` on
source line 350): a dict is truthy when it has at least one key. -/
def RequestInfo.truthy : RequestInfo → Bool
  | ⟨Option.none, Option.none⟩ => false
  | _ => true

namespace StarletteRequestExtractor

/-- Python `StarletteRequestExtractor.extract_request_info` (source lines 226-260).
`client` is `Hub.current.client` and `pii` the result of
`_should_send_default_pii()`. Returns `None` when no client is active.
Cookies are included exactly when PII is enabled. If the body is not within
bounds, `data` is the size-limit `AnnotatedValue` ("!config") carrying the
true length and no form/JSON read is attempted; otherwise `parsed_body` is
consulted, then non-empty raw bytes produce the raw-unparsed
`AnnotatedValue` ("!raw"), and an empty body leaves `data` unset. Exceptions
from `parsed_body` propagate: the source installs no handler. -/
def extract_request_info (client : Option Client) (pii : Bool) (r : Request) :
    Except String (Option RequestInfo) :=
  match client with
  | Option.none => .ok Option.none
  | some client =>
      let cl := content_length r
      let cookiesEntry := if pii then some (cookies r) else Option.none
      if ¬ request_body_within_bounds client cl then
        .ok (some
          { cookies := cookiesEntry,
            data := some (BodyData.annotated
              { value := "", rem := [("!config", "x", 0, cl)], len := cl }) })
      else
        match parsed_body r with
        | .error e => .error e
        | .ok (some body) => .ok (some { cookies := cookiesEntry, data := some body })
        | .ok Option.none =>
            if raw_data_truthy r then
              .ok (some
                { cookies := cookiesEntry,
                  data := some (BodyData.annotated
                    { value := "", rem := [("!raw", "x", 0, cl)], len := cl }) })
            else
              .ok (some { cookies := cookiesEntry, data := Option.none })

end StarletteRequestExtractor

/-! ### The authentication bridge `_add_user_to_sentry_scope` -/

/-- The principal found at `scope["user"]`: each of the three attributes is
read with `getattr(starlette_user, attr, None)`, so a missing attribute is
`Option.none`. -/
structure Principal where
  username : Option String
  id : Option String
  email : Option String
deriving DecidableEq, Repr

/-- Python truthiness of an optional string attribute, as tested by
`if username:` etc. on source lines 127/131/135: `None` and the empty string
are falsy. -/
def truthyStr : Option String → Bool
  | Option.none => false
  | some s => s ≠ ""

/-- Python `_add_user_to_sentry_scope` (source lines 109-138). `scopeUser` is the
`"user"` entry of the ASGI scope (`Option.none` when the key is absent) and
`sentryUser` the current value of `sentry_scope.user` (`Option.none` when
unset). When the scope has no `"user"` key, or no integration is active, the
function returns early and the sentry user is untouched. Otherwise a fresh
`user_info` dict is built: each of `username`, `id`, `email` is inserted (via
`setdefault` on the fresh dict, in this order) exactly when the attribute is
truthy, and `sentry_scope.user` is unconditionally assigned this dict. -/
def _add_user_to_sentry_scope (integration : Option StarletteIntegration)
    (scopeUser : Option Principal)
    (sentryUser : Option (List (String × String))) :
    Option (List (String × String)) :=
  match scopeUser with
  | Option.none => sentryUser
  | some starlette_user =>
      match integration with
      | Option.none => sentryUser
      | some _ =>
          let user_info : List (String × String) := []
          let user_info :=
            if truthyStr starlette_user.username then
              user_info ++ [("username", starlette_user.username.getD "")]
            else user_info
          let user_info :=
            if truthyStr starlette_user.id then
              user_info ++ [("id", starlette_user.id.getD "")]
            else user_info
          let user_info :=
            if truthyStr starlette_user.email then
              user_info ++ [("email", starlette_user.email.getD "")]
            else user_info
          some user_info

/-! ### The request event processor `inner` -/

/-- A value of the `request_info` dict inside an event: the `"cookies"`
mapping, the `"data"` payload, or some other pre-existing entry (uninterpreted). -/
inductive ReqEntryVal where
  | cookies : List (String × String) → ReqEntryVal
  | body : BodyData → ReqEntryVal
  | other : Nat → ReqEntryVal

/-- A top-level value of a diagnostic event dict: the `"request"` sub-dict, a
string (e.g. the `"transaction"` name), or some other uninterpreted value. -/
inductive EVal where
  | str : String → EVal
  | reqDict : List (String × ReqEntryVal) → EVal
  | other : Nat → EVal

/-- A diagnostic event, as the association list of its top-level entries. -/
abbrev Event := List (String × EVal)

/-- Assignment `d[k] = v` on a Python dict, as an association-list update: the first
binding of `k` is replaced in place, and a missing key is appended. -/
def dictSet {α : Type} : List (String × α) → String → α → List (String × α)
  | [], k, v => [(k, v)]
  | (k', v') :: rest, k, v =>
      if k' = k then (k, v) :: rest else (k', v') :: dictSet rest k v

/-- Line 349 of the source, `request_info = event.get("request", ...)` with
an empty dict as the default: the subsequent item assignments require the
retrieved value to be a dict — on any other value Python raises a
`TypeError`, modelled as `Except.error`. -/
def getRequestDict (event : Event) : Except String (List (String × ReqEntryVal)) :=
  match event.lookup "request" with
  | Option.none => Except.ok []
  | some (EVal.reqDict d) => Except.ok d
  | some _ => Except.error "TypeError"

/-- Lines 350-354 of the source: if the captured extractor result `info` is
truthy, its `"cookies"` and `"data"` entries (those of its keys that are
present) are copied into `request_info`. -/
def applyInfo (info : Option RequestInfo)
    (request_info : List (String × ReqEntryVal)) : List (String × ReqEntryVal) :=
  match info with
  | some i =>
      if i.truthy then
        let ri :=
          match i.cookies with
          | some c => dictSet request_info "cookies" (ReqEntryVal.cookies c)
          | Option.none => request_info
        match i.data with
        | some d => dictSet ri "data" (ReqEntryVal.body d)
        | Option.none => ri
      else request_info
  | Option.none => request_info

/-- Lines 357-366 of the source: when the `"router"` key is present in the
request scope, the route loop runs and its final overwrite (if any FULL match
occurred) is applied to `event["transaction"]`. -/
def applyTransaction (routerRoutes : Option (List Route)) (style : String)
    (event : Event) : Event :=
  match routerRoutes with
  | Option.none => event
  | some routes =>
      match (resolveTransaction style routes).1 with
      | some name => dictSet event "transaction" (EVal.str name)
      | Option.none => event

/-- The `inner` event processor returned by `_make_request_event_processor`
(source lines 343-370). `info` is the extractor result the closure captured
(`Option.none` when `extract_request_info` returned `None`), `routerRoutes`
is `req.scope["router"].routes` when the `"router"` key is present, and
`style` is `integration.transaction_style`. Steps, as in the source: read
`event.get("request", ...)` with an empty-dict default (`getRequestDict`);
copy the captured cookies/data in (`applyInfo`); assign `event["request"]`;
run the route loop over `event["transaction"]` (`applyTransaction`); return
the event. -/
def inner (info : Option RequestInfo) (routerRoutes : Option (List Route))
    (style : String) (event : Event) : Except String Event :=
  match getRequestDict event with
  | .error e => .error e
  | .ok request_info =>
      let request_info := applyInfo info request_info
      let event := dictSet event "request" (EVal.reqDict request_info)
      .ok (applyTransaction routerRoutes style event)

/-! ### Helper lemmas -/

/-- Lookup on an association list whose head has exactly the requested key. -/
theorem lookup_cons_self {α : Type} (k : String) (v : α) (l : List (String × α)) :
    ((k, v) :: l).lookup k = some v := by
  simp [List.lookup]

/-- Lookup on an association list skips a head with a different key. -/
theorem lookup_cons_ne {α : Type} {k k' : String} (h : k' ≠ k) (v : α)
    (l : List (String × α)) :
    ((k, v) :: l).lookup k' = l.lookup k' := by
  simp [List.lookup, beq_eq_false_iff_ne.mpr h]

/-- Lookup after a dict update: the updated key reads the new value, every
other key is unaffected. -/
theorem dictSet_lookup {α : Type} (d : List (String × α)) (k k' : String) (v : α) :
    (dictSet d k v).lookup k' = if k' = k then some v else d.lookup k' := by
  induction d with
  | nil =>
      by_cases h : k' = k
      · subst h; simp [dictSet, lookup_cons_self]
      · simp [dictSet, h, lookup_cons_ne h]
  | cons kv rest ih =>
      obtain ⟨k₁, v₁⟩ := kv
      by_cases h : k₁ = k
      · subst h
        by_cases h' : k' = k₁
        · subst h'; simp [dictSet, lookup_cons_self]
        · simp [dictSet, h', lookup_cons_ne h']
      · simp only [dictSet, if_neg h]
        by_cases h' : k' = k₁
        · subst h'
          simp [lookup_cons_self, h]
        · simp [lookup_cons_ne h', ih]

/-- Lookup commutes with mapping a function over the values of an
association list. -/
theorem lookup_map_snd {α β : Type} (f : α → β) (k : String) (l : List (String × α)) :
    (l.map (fun kv => (kv.1, f kv.2))).lookup k = (l.lookup k).map f := by
  induction l with
  | nil => rfl
  | cons kv rest ih =>
      obtain ⟨k₁, v₁⟩ := kv
      by_cases h : k = k₁
      · subst h; simp [lookup_cons_self]
      · simp [lookup_cons_ne h, ih]

/-- The route loop evaluates `matches` on every route of the table. -/
theorem resolveTransactionAux_snd (style : String) (rs : List Route) (tr : Option String) :
    (resolveTransactionAux style rs tr).2 = rs.length := by
  induction rs generalizing tr with
  | nil => rfl
  | cons r rs ih => simp [resolveTransactionAux, ih]

/-- With style `"endpoint"`, the route loop leaves the transaction at its
incoming value unless the table has a FULL match, in which case the last FULL
match's endpoint name wins. -/
theorem resolveTransactionAux_fst_endpoint (rs : List Route) (tr : Option String) :
    (resolveTransactionAux "endpoint" rs tr).1 =
      (match lastFull rs with
       | some r => some r.endpointName
       | Option.none => tr) := by
  induction rs generalizing tr with
  | nil => rfl
  | cons r rs ih =>
      simp only [resolveTransactionAux, ih, lastFull]
      cases h : lastFull rs with
      | some r' => simp
      | none =>
          by_cases hf : r.outcome = Match.FULL <;> simp [hf]

/-- With style `"url"`, the route loop leaves the transaction at its incoming
value unless the table has a FULL match, in which case the last FULL match's
path wins. -/
theorem resolveTransactionAux_fst_url (rs : List Route) (tr : Option String) :
    (resolveTransactionAux "url" rs tr).1 =
      (match lastFull rs with
       | some r => some r.path
       | Option.none => tr) := by
  induction rs generalizing tr with
  | nil => rfl
  | cons r rs ih =>
      simp only [resolveTransactionAux, ih, lastFull]
      cases h : lastFull rs with
      | some r' => simp
      | none =>
          by_cases hf : r.outcome = Match.FULL <;> simp [hf]

/-- Merging the captured extractor info into the request dict touches only
the `"cookies"` and `"data"` keys. -/
theorem applyInfo_lookup_other (info : Option RequestInfo)
    (d : List (String × ReqEntryVal)) (k : String)
    (hc : k ≠ "cookies") (hd : k ≠ "data") :
    (applyInfo info d).lookup k = d.lookup k := by
  cases info with
  | none => rfl
  | some i =>
      obtain ⟨c, dat⟩ := i
      by_cases ht : RequestInfo.truthy ⟨c, dat⟩ <;>
        cases c <;> cases dat <;>
          simp_all [applyInfo, dictSet_lookup, RequestInfo.truthy]

/-- The route-loop step touches only the `"transaction"` key of the event. -/
theorem applyTransaction_lookup_other (routerRoutes : Option (List Route))
    (style : String) (event : Event) (k : String) (ht : k ≠ "transaction") :
    (applyTransaction routerRoutes style event).lookup k = event.lookup k := by
  cases routerRoutes with
  | none => rfl
  | some routes =>
      simp only [applyTransaction]
      cases h : (resolveTransaction style routes).1 with
      | some name => simp [dictSet_lookup, ht]
      | none => rfl

/-- With a non-empty successfully parsed form, `parsed_body` returns the form
dict with every field put through `redactField`. -/
theorem parsed_body_form (r : Request) (f : List (String × FormField))
    (hf : r.formData = .ok f) (hne : f ≠ []) :
    StarletteRequestExtractor.parsed_body r =
      .ok (some (BodyData.form
        (f.map (fun kv => (kv.1, StarletteRequestExtractor.redactField kv.2))))) := by
  unfold StarletteRequestExtractor.parsed_body StarletteRequestExtractor.form
  rw [hf]
  simp [hne]

/-- With an empty form and a JSON document parsed, `parsed_body` returns the
parsed JSON value. -/
theorem parsed_body_json (r : Request) (jv : JsonVal)
    (hf : r.formData = .ok []) (hj : StarletteRequestExtractor.json r = .ok (some jv)) :
    StarletteRequestExtractor.parsed_body r = .ok (some (BodyData.json jv)) := by
  unfold StarletteRequestExtractor.parsed_body StarletteRequestExtractor.form
  rw [hf, hj]
  simp

/-- With an empty form and no JSON document, `parsed_body` returns `None`. -/
theorem parsed_body_none (r : Request)
    (hf : r.formData = .ok []) (hj : StarletteRequestExtractor.json r = .ok Option.none) :
    StarletteRequestExtractor.parsed_body r = .ok Option.none := by
  unfold StarletteRequestExtractor.parsed_body StarletteRequestExtractor.form
  rw [hf, hj]
  simp

/-- When the form read fails, `parsed_body` propagates the exception. -/
theorem parsed_body_form_error (r : Request) (e : String)
    (hf : r.formData = .error e) :
    StarletteRequestExtractor.parsed_body r = .error e := by
  unfold StarletteRequestExtractor.parsed_body StarletteRequestExtractor.form
  rw [hf]

/-- When the form and JSON reads both succeed, `parsed_body` succeeds. -/
theorem parsed_body_ok_of_reads_ok (r : Request) (f : List (String × FormField))
    (j : Option JsonVal) (hf : r.formData = .ok f) (hj : r.jsonData = .ok j) :
    ∃ pb, StarletteRequestExtractor.parsed_body r = .ok pb := by
  by_cases hne : f = []
  · subst hne
    by_cases hij : StarletteRequestExtractor.is_json r
    · cases j with
      | none =>
          exact ⟨Option.none, parsed_body_none r hf (by
            unfold StarletteRequestExtractor.json; simp [hij, hj])⟩
      | some jv =>
          exact ⟨some (BodyData.json jv), parsed_body_json r jv hf (by
            unfold StarletteRequestExtractor.json; simp [hij, hj])⟩
    · exact ⟨Option.none, parsed_body_none r hf (by
        unfold StarletteRequestExtractor.json; simp [hij])⟩
  · exact ⟨_, parsed_body_form r f hf hne⟩

/-- Over-budget branch of `extract_request_info`: the size-limit
`AnnotatedValue` with the true length, no form/JSON read consulted. -/
theorem extract_over_bounds (client : Client) (pii : Bool) (r : Request)
    (hover : request_body_within_bounds client
        (StarletteRequestExtractor.content_length r) = false) :
    StarletteRequestExtractor.extract_request_info (some client) pii r =
      .ok (some
        { cookies := if pii then some r.cookies else Option.none,
          data := some (BodyData.annotated
            { value := "",
              rem := [("!config", "x", 0, StarletteRequestExtractor.content_length r)],
              len := StarletteRequestExtractor.content_length r }) }) := by
  unfold StarletteRequestExtractor.extract_request_info
  simp [hover, StarletteRequestExtractor.cookies]

/-- Within-budget branch of `extract_request_info` when `parsed_body`
produced a payload. -/
theorem extract_within_bounds_parsed (client : Client) (pii : Bool) (r : Request)
    (b : BodyData)
    (hwb : request_body_within_bounds client
        (StarletteRequestExtractor.content_length r) = true)
    (hpb : StarletteRequestExtractor.parsed_body r = .ok (some b)) :
    StarletteRequestExtractor.extract_request_info (some client) pii r =
      .ok (some { cookies := if pii then some r.cookies else Option.none,
                  data := some b }) := by
  unfold StarletteRequestExtractor.extract_request_info
  rw [hpb]
  simp [hwb, StarletteRequestExtractor.cookies]

/-- Within-budget branch of `extract_request_info` with no parsed payload and
non-empty raw bytes: the raw-unparsed `AnnotatedValue` with the true length. -/
theorem extract_within_bounds_raw (client : Client) (pii : Bool) (r : Request)
    (hwb : request_body_within_bounds client
        (StarletteRequestExtractor.content_length r) = true)
    (hpb : StarletteRequestExtractor.parsed_body r = .ok Option.none)
    (hraw : StarletteRequestExtractor.raw_data_truthy r = true) :
    StarletteRequestExtractor.extract_request_info (some client) pii r =
      .ok (some
        { cookies := if pii then some r.cookies else Option.none,
          data := some (BodyData.annotated
            { value := "",
              rem := [("!raw", "x", 0, StarletteRequestExtractor.content_length r)],
              len := StarletteRequestExtractor.content_length r }) }) := by
  unfold StarletteRequestExtractor.extract_request_info
  rw [hpb]
  simp [hwb, hraw, StarletteRequestExtractor.cookies]

/-- Within-budget branch of `extract_request_info` with no parsed payload and
an empty body: `data` stays unset. -/
theorem extract_within_bounds_empty (client : Client) (pii : Bool) (r : Request)
    (hwb : request_body_within_bounds client
        (StarletteRequestExtractor.content_length r) = true)
    (hpb : StarletteRequestExtractor.parsed_body r = .ok Option.none)
    (hraw : StarletteRequestExtractor.raw_data_truthy r = false) :
    StarletteRequestExtractor.extract_request_info (some client) pii r =
      .ok (some { cookies := if pii then some r.cookies else Option.none,
                  data := Option.none }) := by
  unfold StarletteRequestExtractor.extract_request_info
  rw [hpb]
  simp [hwb, hraw, StarletteRequestExtractor.cookies]

/-- Within-budget branch of `extract_request_info` when `parsed_body`
raised: the exception propagates. -/
theorem extract_within_bounds_error (client : Client) (pii : Bool) (r : Request)
    (e : String)
    (hwb : request_body_within_bounds client
        (StarletteRequestExtractor.content_length r) = true)
    (hpb : StarletteRequestExtractor.parsed_body r = .error e) :
    StarletteRequestExtractor.extract_request_info (some client) pii r = .error e := by
  unfold StarletteRequestExtractor.extract_request_info
  rw [hpb]
  simp [hwb]

/-! ### Claim theorems -/

/-- C1: the claim states that with no active reporting integration,
`SentryStarletteMiddleware.__call__` delegates immediately to the wrapped
downstream app. The code disagrees on the delegation: for an HTTP-class
scope with no active integration, `__call__` returns at once WITHOUT
awaiting `self.app` — the request is dropped, not forwarded — while it does,
as claimed, perform no extraction and register no event processor. This
theorem evaluates the embedded `__call__` at that failing input. -/
theorem C1_inactive_integration_drops_request :
    SentryStarletteMiddleware.call Option.none "http" =
      { appCalled := false, extracted := false, processorRegistered := false } := rfl

/-- C2 counterexample: the claim states that transaction-name resolution
stops at the first route whose match outcome is FULL, taking the name from
that first FULL match, with no later route evaluated. On a table of two FULL
matches (endpoints `"alpha"` then `"beta"`, style `"endpoint"`), that
predicts the result `(some "alpha", 1)`; the loop actually evaluates both
routes and resolves to the SECOND route's endpoint name: `(some "beta", 2)`. -/
theorem C2_counterexample :
    resolveTransaction "endpoint"
        [{ path := "/a", endpointName := "alpha", outcome := Match.FULL },
         { path := "/b", endpointName := "beta", outcome := Match.FULL }] =
        (some "beta", 2) ∧
    resolveTransaction "endpoint"
        [{ path := "/a", endpointName := "alpha", outcome := Match.FULL },
         { path := "/b", endpointName := "beta", outcome := Match.FULL }] ≠
        (some "alpha", 1) := by
  constructor
  · rfl
  · intro h
    simp [resolveTransaction, resolveTransactionAux] at h

/-- C2 amended: the loop iterates the route table in declared order but
contains no `break`: every route's `matches` is evaluated (the evaluation
count equals the table length for every style), and the resolved transaction
name derives from the LAST route whose match outcome is FULL — the endpoint's
declared name for style `"endpoint"`, the route's declared path for style
`"url"`; with no FULL match the transaction is left unset. -/
theorem C2_amended_last_full_match_wins (routes : List Route) :
    (resolveTransaction "endpoint" routes).1 =
        (match lastFull routes with
         | some r => some r.endpointName
         | Option.none => Option.none) ∧
    (resolveTransaction "url" routes).1 =
        (match lastFull routes with
         | some r => some r.path
         | Option.none => Option.none) ∧
    ∀ style : String, (resolveTransaction style routes).2 = routes.length :=
  ⟨resolveTransactionAux_fst_endpoint routes Option.none,
   resolveTransactionAux_fst_url routes Option.none,
   fun style => resolveTransactionAux_snd style routes Option.none⟩

/-- C4 counterexample: the claim states the wrapped middleware call returns
the original call's return value unchanged. The wrapper awaits `old_call`
without a `return` statement, so when the original call returns the value
`5`, the wrapper (with an active integration) returns `None` instead. -/
theorem C4_counterexample :
    (_create_span_call (some { transaction_style := "endpoint" }) "M"
        (.ok (PyVal.int 5))).2 = .ok PyVal.none ∧
    (_create_span_call (some { transaction_style := "endpoint" }) "M"
        (.ok (PyVal.int 5))).2 ≠ .ok (PyVal.int 5) := by
  refine ⟨rfl, fun h => ?_⟩
  simp [_create_span_call] at h

/-- C4 amended: in both the active-integration and inactive-integration
branches, any exception raised by the original call propagates unchanged
(after the span, if any, is closed — the span list is produced in the error
case too), and the wrapper's return value is always `None`: identical to the
original call's whenever the original returns `None` (as ASGI middleware
calls do), and discarded otherwise. -/
theorem C4_amended_span_wrapper (integration : Option StarletteIntegration)
    (name : String) (old_call : Except String PyVal) :
    (∀ e, old_call = .error e →
        (_create_span_call integration name old_call).2 = .error e ∧
        (_create_span_call integration name old_call).1 =
          (_create_span_call integration name (.ok PyVal.none)).1) ∧
    (∀ v, old_call = .ok v →
        (_create_span_call integration name old_call).2 = .ok PyVal.none) := by
  constructor
  · intro e he
    subst he
    cases integration <;> exact ⟨rfl, rfl⟩
  · intro v hv
    subst hv
    cases integration <;> rfl

/-- C4 amended, witness: concrete instances — an exception `"boom"` raised by
the original call propagates unchanged through the inactive branch, and a
`None`-returning original call comes back unchanged through the active
branch. -/
theorem C4_witness :
    (_create_span_call Option.none "CORSMiddleware" (.error "boom")).2 = .error "boom" ∧
    (_create_span_call (some { transaction_style := "url" }) "CORSMiddleware"
        (.ok PyVal.none)).2 = .ok PyVal.none :=
  ⟨((C4_amended_span_wrapper Option.none "CORSMiddleware" (.error "boom")).1
      "boom" rfl).1,
   (C4_amended_span_wrapper (some { transaction_style := "url" }) "CORSMiddleware"
      (.ok PyVal.none)).2 PyVal.none rfl⟩

/-- C7: with an active integration, the patched exception-dispatch hook
reports the exception with `handled = true` and mechanism type equal to the
subsystem identifier `"starlette"`, and then calls the original
`http_exception` hook with the identical `(request, exc)` arguments,
returning its result unchanged. -/
theorem C7_handled_exception_capture {ρ δ : Type}
    (i : StarletteIntegration) (integration : Option StarletteIntegration)
    (old_http_exception : ρ → String → δ)
    (hact : integration = some i) (request : ρ) (exc : String) :
    _sentry_patched_http_exception integration old_http_exception request exc =
      (some { exception := exc,
              mechanism := { type := StarletteIntegration.identifier, handled := true } },
       old_http_exception request exc) := by
  subst hact; rfl

/-- C7 witness: a concrete hook returning a response string built from its
arguments; the patched hook captures the event and returns exactly the
original hook's response. -/
theorem C7_witness :
    _sentry_patched_http_exception (some { transaction_style := "endpoint" })
        (fun (r : String) (e : String) => r ++ "/" ++ e) "request0" "ValueError" =
      (some { exception := "ValueError",
              mechanism := { type := StarletteIntegration.identifier, handled := true } },
       "request0" ++ "/" ++ "ValueError") :=
  C7_handled_exception_capture { transaction_style := "endpoint" }
    (some { transaction_style := "endpoint" })
    (fun (r : String) (e : String) => r ++ "/" ++ e) rfl "request0" "ValueError"

/-- C9: `StarletteIntegration.__init__` validates the transaction style at
construction time: any value other than `"endpoint"` or `"url"` raises a
`ValueError` immediately (construction fails, so the error can never be
deferred to request time), and each of the two valid values constructs
successfully with exactly that style stored. -/
theorem C9_transaction_style_validation (s : String) :
    (¬ (s = "endpoint" ∨ s = "url") →
        StarletteIntegration.init s =
          .error ("Invalid value for transaction_style: " ++ s)) ∧
    ((s = "endpoint" ∨ s = "url") →
        StarletteIntegration.init s = .ok { transaction_style := s }) := by
  constructor
  · intro h
    have hm : s ∉ TRANSACTION_STYLE_VALUES := by
      simp only [TRANSACTION_STYLE_VALUES, List.mem_cons, List.mem_singleton,
        List.not_mem_nil, or_false]
      exact h
    simp [StarletteIntegration.init, hm]
  · intro h
    have hm : s ∈ TRANSACTION_STYLE_VALUES := by
      simp only [TRANSACTION_STYLE_VALUES, List.mem_cons, List.mem_singleton,
        List.not_mem_nil, or_false]
      exact h
    simp [StarletteIntegration.init, hm]

/-- C9 witness: the style `"component"` is rejected at construction with the
`ValueError` message, and the style `"url"` constructs an integration storing
exactly that style. -/
theorem C9_witness :
    StarletteIntegration.init "component" =
        .error ("Invalid value for transaction_style: " ++ "component") ∧
    StarletteIntegration.init "url" = .ok { transaction_style := "url" } :=
  ⟨(C9_transaction_style_validation "component").1 (by decide),
   (C9_transaction_style_validation "url").2 (Or.inr rfl)⟩

/-- C3 counterexample: the claim states `extract_request_info` never raises
past its boundary and that parse failures degrade to the raw-unparsed
fallback. The source installs no exception handler: on a request with JSON
content type, an in-budget non-empty body, an empty form and a JSON body
that fails to parse (`request.json()` raises `JSONDecodeError`), the
exception escapes `extract_request_info` instead of degrading to a
fallback. -/
theorem C3_counterexample :
    StarletteRequestExtractor.extract_request_info (some { sizeBudget := 100 }) false
        { contentType := some "application/json", cookies := [],
          body := some [104, 105], formData := .ok [],
          jsonData := .error "JSONDecodeError" } =
      .error "JSONDecodeError" := by rfl

/-- C3 amended: extraction returns `None` when no client is active, and
succeeds (with null/partial data) whenever the form and JSON reads succeed;
but a failure while reading the form (and likewise the JSON body) propagates
out of `extract_request_info` to the caller — the source installs no handler,
so there is no degradation to a fallback on parse failure. -/
theorem C3_amended_parse_failures_propagate (client : Client) (pii : Bool) (r : Request) :
    StarletteRequestExtractor.extract_request_info Option.none pii r = .ok Option.none ∧
    (∀ f j, r.formData = .ok f → r.jsonData = .ok j →
        ∃ out, StarletteRequestExtractor.extract_request_info (some client) pii r =
          .ok out) ∧
    (∀ e, request_body_within_bounds client
          (StarletteRequestExtractor.content_length r) = true →
        r.formData = .error e →
        StarletteRequestExtractor.extract_request_info (some client) pii r =
          .error e) := by
  refine ⟨rfl, ?_, ?_⟩
  · intro f j hf hj
    cases hwb : request_body_within_bounds client
        (StarletteRequestExtractor.content_length r) with
    | false => exact ⟨_, extract_over_bounds client pii r hwb⟩
    | true =>
        obtain ⟨pb, hpb⟩ := parsed_body_ok_of_reads_ok r f j hf hj
        cases pb with
        | some b => exact ⟨_, extract_within_bounds_parsed client pii r b hwb hpb⟩
        | none =>
            cases hraw : StarletteRequestExtractor.raw_data_truthy r with
            | true => exact ⟨_, extract_within_bounds_raw client pii r hwb hpb hraw⟩
            | false => exact ⟨_, extract_within_bounds_empty client pii r hwb hpb hraw⟩
  · intro e hwb hf
    exact extract_within_bounds_error client pii r e hwb (parsed_body_form_error r e hf)

/-- C3 amended, witness: a request whose reads succeed extracts successfully,
and a request whose form read raises `"FormParseError"` propagates exactly
that exception. -/
theorem C3_witness :
    (∃ out, StarletteRequestExtractor.extract_request_info (some { sizeBudget := 100 })
        true
        { contentType := Option.none, cookies := [("session", "abc")],
          body := some [104, 105],
          formData := .ok [("username", FormField.value "kevin")],
          jsonData := .ok Option.none } = .ok out) ∧
    StarletteRequestExtractor.extract_request_info (some { sizeBudget := 100 }) false
        { contentType := Option.none, cookies := [],
          body := some [104, 105], formData := .error "FormParseError",
          jsonData := .ok Option.none } =
      .error "FormParseError" := by
  constructor
  · exact (C3_amended_parse_failures_propagate { sizeBudget := 100 } true _).2.1
      [("username", FormField.value "kevin")] Option.none rfl rfl
  · exact (C3_amended_parse_failures_propagate { sizeBudget := 100 } false _).2.2
      "FormParseError" (by decide) rfl

/-- C5: for an in-budget body, parsing is attempted form-first: a non-empty
form wins (every file-like upload field's value replaced by a length-only
`AnnotatedValue` carrying the file's byte length, never the content; every
non-file field kept raw — per-key, lookup commutes with the redaction); with
an empty form a parsed JSON document is used; with neither, non-empty raw
bytes degrade to the raw-unparsed `AnnotatedValue`; and an empty body leaves
`data` unset. -/
theorem C5_parse_priority_and_upload_redaction (client : Client) (pii : Bool)
    (r : Request)
    (hwb : request_body_within_bounds client
        (StarletteRequestExtractor.content_length r) = true) :
    (∀ f, r.formData = .ok f → f ≠ [] →
        StarletteRequestExtractor.extract_request_info (some client) pii r =
          .ok (some { cookies := if pii then some r.cookies else Option.none,
                      data := some (BodyData.form (f.map (fun kv =>
                        (kv.1, StarletteRequestExtractor.redactField kv.2)))) }) ∧
        (∀ k, (f.map (fun kv =>
              (kv.1, StarletteRequestExtractor.redactField kv.2))).lookup k =
            (f.lookup k).map StarletteRequestExtractor.redactField)) ∧
    (∀ content, StarletteRequestExtractor.redactField (FormField.uploadFile content) =
        ParsedVal.annotated { value := "", rem := [("!raw", "x", 0, content.length)],
                              len := content.length }) ∧
    (∀ s, StarletteRequestExtractor.redactField (FormField.value s) =
        ParsedVal.str s) ∧
    (∀ jv, r.formData = .ok [] →
        StarletteRequestExtractor.json r = .ok (some jv) →
        StarletteRequestExtractor.extract_request_info (some client) pii r =
          .ok (some { cookies := if pii then some r.cookies else Option.none,
                      data := some (BodyData.json jv) })) ∧
    (r.formData = .ok [] →
      StarletteRequestExtractor.json r = .ok Option.none →
      StarletteRequestExtractor.raw_data_truthy r = true →
        StarletteRequestExtractor.extract_request_info (some client) pii r =
          .ok (some { cookies := if pii then some r.cookies else Option.none,
                      data := some (BodyData.annotated
                        { value := "",
                          rem := [("!raw", "x", 0,
                            StarletteRequestExtractor.content_length r)],
                          len := StarletteRequestExtractor.content_length r }) })) ∧
    (r.formData = .ok [] →
      StarletteRequestExtractor.json r = .ok Option.none →
      StarletteRequestExtractor.raw_data_truthy r = false →
        StarletteRequestExtractor.extract_request_info (some client) pii r =
          .ok (some { cookies := if pii then some r.cookies else Option.none,
                      data := Option.none })) := by
  refine ⟨?_, fun content => rfl, fun s => rfl, ?_, ?_, ?_⟩
  · intro f hf hne
    exact ⟨extract_within_bounds_parsed client pii r _ hwb (parsed_body_form r f hf hne),
           fun k => lookup_map_snd StarletteRequestExtractor.redactField k f⟩
  · intro jv hf hj
    exact extract_within_bounds_parsed client pii r _ hwb (parsed_body_json r jv hf hj)
  · intro hf hj hraw
    exact extract_within_bounds_raw client pii r hwb (parsed_body_none r hf hj) hraw
  · intro hf hj hraw
    exact extract_within_bounds_empty client pii r hwb (parsed_body_none r hf hj) hraw

/-- C5 witness: a multipart body with the text field `username=Julian` and a
4-byte file field `photo` extracts to `username` kept raw and `photo`
replaced by a length-only `AnnotatedValue` of length 4; and a JSON request
with an empty form extracts the parsed JSON value. -/
theorem C5_witness :
    StarletteRequestExtractor.extract_request_info (some { sizeBudget := 100 }) false
        { contentType := Option.none, cookies := [],
          body := some [1, 2, 3],
          formData := .ok [("username", FormField.value "Julian"),
                           ("photo", FormField.uploadFile [10, 20, 30, 40])],
          jsonData := .ok Option.none } =
      .ok (some { cookies := Option.none,
                  data := some (BodyData.form
                    [("username", ParsedVal.str "Julian"),
                     ("photo", ParsedVal.annotated
                        { value := "", rem := [("!raw", "x", 0, 4)], len := 4 })]) }) ∧
    StarletteRequestExtractor.extract_request_info (some { sizeBudget := 100 }) false
        { contentType := some "application/json", cookies := [],
          body := some [1, 2, 3], formData := .ok [],
          jsonData := .ok (some { token := 42 }) } =
      .ok (some { cookies := Option.none,
                  data := some (BodyData.json { token := 42 }) }) := by
  constructor
  · exact ((C5_parse_priority_and_upload_redaction { sizeBudget := 100 } false _
      (by decide)).1
      [("username", FormField.value "Julian"),
       ("photo", FormField.uploadFile [10, 20, 30, 40])] rfl (by decide)).1
  · exact (C5_parse_priority_and_upload_redaction { sizeBudget := 100 } false _
      (by decide)).2.2.2.1 { token := 42 } rfl (by rfl)

/-- C6: when the body length is not within the client's bounds,
`extract_request_info` sets `data` to the size-limit `AnnotatedValue`
(`"!config"`) carrying the true body length, and the result is independent of
the request's form/JSON reads — they are never attempted, so the equation
holds even for requests whose reads would raise. The bounds predicate is
modelled from the spec (`request_body_within_bounds` lives outside this
repository snapshot). -/
theorem C6_size_limit_redaction (client : Client) (pii : Bool) (r : Request)
    (hover : request_body_within_bounds client
        (StarletteRequestExtractor.content_length r) = false) :
    StarletteRequestExtractor.extract_request_info (some client) pii r =
        .ok (some
          { cookies := if pii then some r.cookies else Option.none,
            data := some (BodyData.annotated
              { value := "",
                rem := [("!config", "x", 0, StarletteRequestExtractor.content_length r)],
                len := StarletteRequestExtractor.content_length r }) }) ∧
    ∀ fd jd,
      StarletteRequestExtractor.extract_request_info (some client) pii
          { r with formData := fd, jsonData := jd } =
        StarletteRequestExtractor.extract_request_info (some client) pii r := by
  constructor
  · exact extract_over_bounds client pii r hover
  · intro fd jd
    rw [extract_over_bounds client pii r hover,
        extract_over_bounds client pii { r with formData := fd, jsonData := jd } hover]
    rfl

/-- C6 witness: with `sizeBudget = 2` and a 3-byte body, extraction returns
the size-limit redaction of length 3 — on a request whose form and JSON
reads would both raise, showing no parse is attempted. -/
theorem C6_witness :
    StarletteRequestExtractor.extract_request_info (some { sizeBudget := 2 }) false
        { contentType := Option.none, cookies := [], body := some [1, 2, 3],
          formData := .error "never-read", jsonData := .error "never-read" } =
      .ok (some { cookies := Option.none,
                  data := some (BodyData.annotated
                    { value := "", rem := [("!config", "x", 0, 3)], len := 3 }) }) :=
  (C6_size_limit_redaction { sizeBudget := 2 } false _ (by decide)).1

/-- C8 counterexample: the claim states that absent an authenticated
principal the user record is left unset — never an empty-but-present record
unless fields were individually found. But when the ASGI scope carries a
`"user"` entry whose principal exposes none of `username`/`id`/`email` (e.g.
Starlette's `UnauthenticatedUser`), the code still assigns
`sentry_scope.user = user_info` with the empty dict: the user record becomes
present-but-empty with zero fields found. -/
theorem C8_counterexample :
    _add_user_to_sentry_scope (some { transaction_style := "endpoint" })
        (some { username := Option.none, id := Option.none, email := Option.none })
        Option.none = some [] ∧
    some ([] : List (String × String)) ≠ (Option.none : Option (List (String × String))) := by
  exact ⟨rfl, by decide⟩

/-- C8 amended: each of `username`, `id`, `email` is copied into the sentry
scope's user independently and only if non-empty/non-null (so a principal
exposing only `email` yields exactly the one `email` field, and no other key
is ever written); when the scope carries no `"user"` entry (or no integration
is active) the user record is left untouched; but whenever a principal is
present in the scope — even one exposing no fields — the user record is
unconditionally assigned, so a field-less principal produces an
empty-but-present record. -/
theorem C8_amended_user_fields (i : StarletteIntegration) (u : Principal)
    (prior : Option (List (String × String))) :
    _add_user_to_sentry_scope (some i) Option.none prior = prior ∧
    _add_user_to_sentry_scope Option.none (some u) prior = prior ∧
    ∃ d, _add_user_to_sentry_scope (some i) (some u) prior = some d ∧
      d.lookup "username" = (if truthyStr u.username then u.username else Option.none) ∧
      d.lookup "id" = (if truthyStr u.id then u.id else Option.none) ∧
      d.lookup "email" = (if truthyStr u.email then u.email else Option.none) ∧
      ∀ k, k ≠ "username" → k ≠ "id" → k ≠ "email" → d.lookup k = Option.none := by
  refine ⟨rfl, rfl, ?_⟩
  obtain ⟨un, uid, em⟩ := u
  refine ⟨_, rfl, ?_, ?_, ?_, ?_⟩
  · cases un <;> cases uid <;> cases em <;>
      simp_all [_add_user_to_sentry_scope, truthyStr, List.lookup] <;> split_ifs <;>
      simp_all [List.lookup] <;> aesop
  · cases un <;> cases uid <;> cases em <;>
      simp_all [_add_user_to_sentry_scope, truthyStr, List.lookup] <;> split_ifs <;>
      simp_all [List.lookup] <;> aesop
  · cases un <;> cases uid <;> cases em <;>
      simp_all [_add_user_to_sentry_scope, truthyStr, List.lookup] <;> split_ifs <;>
      simp_all [List.lookup] <;> aesop
  · intro k hk1 hk2 hk3
    cases un <;> cases uid <;> cases em <;>
      simp_all [_add_user_to_sentry_scope, truthyStr, List.lookup] <;> split_ifs <;>
      simp_all [List.lookup] <;> aesop

/-- C8 amended, witness: a principal exposing only `email` populates the
user record with exactly the `email` field: `username`, `id` and any other
key are absent. -/
theorem C8_witness :
    ∃ d, _add_user_to_sentry_scope (some { transaction_style := "endpoint" })
        (some { username := Option.none, id := Option.none, email := some "a@b.c" })
        Option.none = some d ∧
      d.lookup "username" = Option.none ∧
      d.lookup "id" = Option.none ∧
      d.lookup "email" = some "a@b.c" ∧
      d.lookup "ip_address" = Option.none := by
  obtain ⟨d, hd, hu, hi, he, hrest⟩ :=
    (C8_amended_user_fields { transaction_style := "endpoint" }
      { username := Option.none, id := Option.none, email := some "a@b.c" }
      Option.none).2.2
  exact ⟨d, hd, by simpa using hu, by simpa using hi, by simpa using he,
         hrest "ip_address" (by decide) (by decide) (by decide)⟩

/-- C10: the registered request event processor never returns null: on any
event whose `"request"` entry (if present) is a dict, it returns the event
(`Except.ok`), modifies at most the top-level keys `"request"` and
`"transaction"` (every other top-level entry reads back unchanged), and
preserves every pre-existing entry of `event["request"]` other than
`"cookies"` and `"data"`. -/
theorem C10_event_processor_frame (info : Option RequestInfo)
    (routerRoutes : Option (List Route)) (style : String) (event : Event)
    (hreq : event.lookup "request" = Option.none ∨
            ∃ d, event.lookup "request" = some (EVal.reqDict d)) :
    ∃ event', inner info routerRoutes style event = .ok event' ∧
      (∀ k, k ≠ "request" → k ≠ "transaction" →
          event'.lookup k = event.lookup k) ∧
      (∀ d, event.lookup "request" = some (EVal.reqDict d) →
          ∃ d', event'.lookup "request" = some (EVal.reqDict d') ∧
            ∀ k, k ≠ "cookies" → k ≠ "data" → d'.lookup k = d.lookup k) := by
  have hget : ∃ d0, getRequestDict event = .ok d0 ∧
      (∀ d, event.lookup "request" = some (EVal.reqDict d) → d0 = d) := by
    rcases hreq with h | ⟨d, h⟩
    · refine ⟨[], by simp [getRequestDict, h], fun d hd => ?_⟩
      rw [h] at hd; cases hd
    · refine ⟨d, by simp [getRequestDict, h], fun d' hd' => ?_⟩
      rw [h] at hd'
      exact EVal.reqDict.inj (Option.some.inj hd')
  obtain ⟨d0, hok, hd0⟩ := hget
  have hinner : inner info routerRoutes style event =
      .ok (applyTransaction routerRoutes style
        (dictSet event "request" (EVal.reqDict (applyInfo info d0)))) := by
    unfold inner
    rw [hok]
  refine ⟨_, hinner, ?_, ?_⟩
  · intro k hk1 hk2
    rw [applyTransaction_lookup_other _ _ _ _ hk2, dictSet_lookup, if_neg hk1]
  · intro d hd
    have hd0d : d0 = d := hd0 d hd
    subst hd0d
    refine ⟨applyInfo info d0, ?_, ?_⟩
    · rw [applyTransaction_lookup_other _ _ _ _ (by decide), dictSet_lookup,
        if_pos rfl]
    · intro k hk1 hk2
      exact applyInfo_lookup_other info d0 k hk1 hk2

/-- C10 witness: a concrete event with a pre-existing `"request"` dict entry
(`"url"`) and an `"exception"` entry, processed with captured cookies/data
and one FULL route: the processor succeeds, `"exception"` reads back
unchanged, and the `"url"` entry of the request dict is preserved. -/
theorem C10_witness :
    ∃ event', inner
        (some { cookies := some [("sid", "1")],
                data := some (BodyData.json { token := 9 }) })
        (some [{ path := "/w", endpointName := "w", outcome := Match.FULL }]) "url"
        [("request", EVal.reqDict [("url", ReqEntryVal.other 7)]),
         ("exception", EVal.other 3)] = .ok event' ∧
      (∀ k, k ≠ "request" → k ≠ "transaction" →
          event'.lookup k =
            ([("request", EVal.reqDict [("url", ReqEntryVal.other 7)]),
              ("exception", EVal.other 3)] : Event).lookup k) ∧
      (∀ d, ([("request", EVal.reqDict [("url", ReqEntryVal.other 7)]),
              ("exception", EVal.other 3)] : Event).lookup "request" =
            some (EVal.reqDict d) →
          ∃ d', event'.lookup "request" = some (EVal.reqDict d') ∧
            ∀ k, k ≠ "cookies" → k ≠ "data" → d'.lookup k = d.lookup k) :=
  C10_event_processor_frame
    (some { cookies := some [("sid", "1")],
            data := some (BodyData.json { token := 9 }) })
    (some [{ path := "/w", endpointName := "w", outcome := Match.FULL }]) "url"
    [("request", EVal.reqDict [("url", ReqEntryVal.other 7)]),
     ("exception", EVal.other 3)]
    (Or.inr ⟨[("url", ReqEntryVal.other 7)], rfl⟩)

end SentryStarlette
